import Mathlib

/-!
Shallow embedding of the scheduling and execution pipeline of a Telegram
digest bot (`worker/scheduler.py`, `worker/processor.py`,
`app/deepseek_client.py`, `app/routers/templates.py`, `app/models.py`).

Conventions of the embedding:
* `datetime` values are integers counting seconds; `timedelta(hours=h)`
  becomes `3600 * h`.
* Database rows become fields of a `DBState` record; an SQLAlchemy
  `session.commit()` becomes producing a new `DBState` value.  The states a
  run commits are exposed so that invariants about intermediate states can
  be stated.
* Network calls (`fetch_messages`, `summarize_messages`, `send_message`)
  become oracle functions returning `Except`; a raised exception is the
  `.error` case.  Every external call made by a run is recorded as an
  `Event` so that "no call was made" is expressible.
* Python truthiness tests (`if identifier:`, `if chat_id:`,
  `if run_log_id:`, `if error_message:`, `if hours_back:`) are modelled
  exactly: `None`, `0` and `""` are falsy.
-/

namespace TgBot

/-- A collected message record (the dicts produced by `fetch_messages`). -/
structure Msg where
  text : String
  link : Option String := none
  deriving DecidableEq, Repr

/-- An identifier a fetch can be attempted with: the human-readable
`source_identifier` string, or the cached numeric `source_chat_id`. -/
inductive Ident where
  | strId (s : String)
  | numId (n : Int)
  deriving DecidableEq, Repr

/-- One entry of `sources_data` built in `process_template`:
`{"identifier": s.source_identifier, "chat_id": s.source_chat_id}`,
mirroring the `TemplateSource` row (`app/models.py`). -/
structure SourceData where
  identifier : String
  chatId : Option Int
  deriving DecidableEq, Repr

/-- A `Template` row (`app/models.py`). -/
structure Template where
  id : Nat
  userId : Nat
  name : String
  targetChatId : String
  frequencyHours : Nat
  isActive : Bool
  lastRunAt : Option Int
  inProgress : Bool
  customPrompt : Option String
  sources : List SourceData
  deriving DecidableEq, Repr

/-- A `RunLog` row (`app/models.py`). -/
structure RunLog where
  id : Nat
  templateId : Nat
  startedAt : Int
  finishedAt : Option Int
  status : String
  messagesCount : Nat
  errorMessage : Option String
  deriving DecidableEq, Repr

/-- The durable database state shared by scheduler, processor and API. -/
structure DBState where
  templates : List Template
  runLogs : List RunLog
  nextRunLogId : Nat
  deriving DecidableEq, Repr

/-- Result of `summarize_messages` (`app/deepseek_client.py`). -/
structure SummaryResult where
  text : String
  promptTokens : Option Nat := none
  completionTokens : Option Nat := none
  totalTokens : Option Nat := none
  deriving DecidableEq, Repr

/-- `ProcessResult` (`worker/processor.py`). -/
structure ProcessResult where
  success : Bool
  messagesCount : Nat := 0
  totalTokens : Option Nat := none
  error : Option String := none
  deriving DecidableEq, Repr

/-- An external call performed during a run. -/
inductive Event where
  | fetchCall (i : Ident) (fromDt : Option Int)
  | summarizeCall (msgs : List Msg)
  | sendCall (chat : String) (text : String)
  deriving DecidableEq, Repr

/-- `true` exactly on summarizer calls. -/
def Event.isSummarize : Event → Bool
  | .summarizeCall _ => true
  | _ => false

/-- `true` exactly on delivery calls. -/
def Event.isSend : Event → Bool
  | .sendCall _ _ => true
  | _ => false

/-- The external collaborators (`fetch_messages`, `summarize_messages`,
`send_message`), as oracles: a raised exception is the `.error` case. -/
structure Oracles where
  fetch : Ident → Option Int → Except String (List Msg)
  summarize : List Msg → Option String → Except String SummaryResult
  send : String → String → Except String Unit

/-- `select(Template).where(Template.id == template_id)` followed by
`scalar_one_or_none()`. -/
def findTemplate (s : DBState) (templateId : Nat) : Option Template :=
  s.templates.find? (fun t => t.id == templateId)

/-- `select(RunLog).where(RunLog.id == run_log_id)` followed by
`scalar_one_or_none()`. -/
def findRunLog (s : DBState) (runLogId : Nat) : Option RunLog :=
  s.runLogs.find? (fun rl => rl.id == runLogId)

/-! ### Scheduler (`worker/scheduler.py`) -/

/-- `is_template_due`: due when never run, else when
`now >= last_run_at + timedelta(hours=frequency_hours)`. -/
def is_template_due (t : Template) (now : Int) : Bool :=
  match t.lastRunAt with
  | none => true
  | some last => decide (now ≥ last + 3600 * (t.frequencyHours : Int))

/-- The candidate filter of `_schedule_due_templates`: the SQL
`is_active AND NOT in_progress` filter followed by `is_template_due`. -/
def dueForDispatch (t : Template) (now : Int) : Bool :=
  t.isActive && !t.inProgress && is_template_due t now

/-- `_schedule_due_templates`: select active idle due templates, set
`in_progress = True` for all of them in one commit, and return the new
state together with the template ids dispatched to `process_template`. -/
def scheduleDueTemplates (s : DBState) (now : Int) : DBState × List Nat :=
  let ids := (s.templates.filter (fun t => dueForDispatch t now)).map (·.id)
  ({ s with
      templates := s.templates.map (fun t =>
        if dueForDispatch t now then { t with inProgress := true } else t) },
   ids)

/-! ### Message aggregator (`_collect_messages_from_data`) -/

/-- The `candidates` list built for one source: the identifier is appended
when truthy (non-empty), then the chat id when truthy (present and
non-zero) — the source code comment reads "Try identifier first, then
chat_id". -/
def sourceCandidates (s : SourceData) : List Ident :=
  (if s.identifier = "" then [] else [Ident.strId s.identifier]) ++
    (match s.chatId with
     | some c => if c = 0 then [] else [Ident.numId c]
     | none => [])

/-- The inner `for candidate in candidates` loop: fetch each candidate in
turn, stopping at the first success and swallowing each failure.  Returns
the messages collected for this source together with the list of
candidates actually attempted, in order. -/
def tryCandidates (fetch : Ident → Option Int → Except String (List Msg))
    (fromDt : Option Int) : List Ident → List Msg × List Ident
  | [] => ([], [])
  | c :: rest =>
    match fetch c fromDt with
    | .ok msgs => (msgs, [c])
    | .error _ =>
      let r := tryCandidates fetch fromDt rest
      (r.1, c :: r.2)

/-- Collection for a single source: build its candidate list and run the
candidate loop. -/
def collectFromSource (fetch : Ident → Option Int → Except String (List Msg))
    (fromDt : Option Int) (s : SourceData) : List Msg × List Ident :=
  tryCandidates fetch fromDt (sourceCandidates s)

/-- `_collect_messages_from_data`: extend `collected` with each source's
messages; per-candidate failures are logged and skipped, so the function
itself never fails.  Also returns every attempted candidate, in order. -/
def collectMessagesFromData (fetch : Ident → Option Int → Except String (List Msg))
    (fromDt : Option Int) : List SourceData → List Msg × List Ident
  | [] => ([], [])
  | s :: rest =>
    let r := collectFromSource fetch fromDt s
    let r2 := collectMessagesFromData fetch fromDt rest
    (r.1 ++ r2.1, r.2 ++ r2.2)

/-! ### Processor (`worker/processor.py`) -/

/-- `_finalize_template_run`: in one transaction, clear the template's
`in_progress` (advancing `last_run_at` on success), and, when a run-log id
is truthy, set the run log's status, message count, finish timestamp and
(when truthy) error message.  The surrounding `try/except` only swallows
storage failures; the transaction itself is modelled as succeeding. -/
def finalizeTemplateRun (s : DBState) (templateId : Nat) (runLogId : Option Nat)
    (success : Bool) (messagesCount : Nat) (errorMessage : Option String)
    (now : Int) : DBState :=
  let temps := s.templates.map fun t =>
    if t.id == templateId then
      let t1 := { t with inProgress := false }
      if success then { t1 with lastRunAt := some now } else t1
    else t
  let logs :=
    match runLogId with
    | some rid =>
      if rid ≠ 0 then
        s.runLogs.map fun rl =>
          if rl.id == rid then
            let rl1 := { rl with
              status := if success then "success" else "error",
              messagesCount := messagesCount,
              finishedAt := some now }
            match errorMessage with
            | some e => if e ≠ "" then { rl1 with errorMessage := some e } else rl1
            | none => rl1
          else rl
      else s.runLogs
    | none => s.runLogs
  { s with templates := temps, runLogs := logs }

/-- Everything observable about one `process_template` invocation: the
returned `ProcessResult`, the final database state, the intermediate state
committed right after the run log was created (absent when the template was
not found), and the external calls made. -/
structure RunOutput where
  result : ProcessResult
  state : DBState
  midState : Option DBState
  events : List Event
  deriving DecidableEq, Repr

/-- The effective watermark: `from_dt = from_datetime_override`, falling
back to the template's `last_run_at` when the override is `None`. -/
def effectiveFrom (fromOverride : Option Int) (tpl : Template) : Option Int :=
  match fromOverride with
  | some d => some d
  | none => tpl.lastRunAt

/-- "Create and COMMIT the run_log immediately": append a fresh
`RunLog(status="running")` row and advance the id counter. -/
def createRunningLog (s0 : DBState) (tpl : Template) (startNow : Int) : DBState :=
  { s0 with
    runLogs := s0.runLogs ++
      [{ id := s0.nextRunLogId, templateId := tpl.id, startedAt := startNow,
         finishedAt := none, status := "running", messagesCount := 0,
         errorMessage := none }],
    nextRunLogId := s0.nextRunLogId + 1 }

/-- `process_template(template_id, from_datetime_override)`.

* Load phase: look the template up; when absent return
  `ProcessResult(success=False, error="Template not found")` without
  creating a run log or touching the network.
* Otherwise commit a `RunLog(status="running")` immediately, collect
  messages, and either short-circuit on an empty collection or summarize
  and send, finalizing with success or error accordingly.
* `startNow` is the clock reading used for `RunLog.started_at`; `finNow`
  is the one used inside `_finalize_template_run`. -/
def processTemplate (o : Oracles) (s0 : DBState) (templateId : Nat)
    (fromOverride : Option Int) (startNow finNow : Int) : RunOutput :=
  match findTemplate s0 templateId with
  | none =>
    { result := { success := false, error := some "Template not found" },
      state := s0, midState := none, events := [] }
  | some tpl =>
    let fromDt := effectiveFrom fromOverride tpl
    let runLogId := s0.nextRunLogId
    let s1 : DBState := createRunningLog s0 tpl startNow
    let collected := collectMessagesFromData o.fetch fromDt tpl.sources
    let msgs := collected.1
    let fetchEvents := collected.2.map (fun c => Event.fetchCall c fromDt)
    if msgs.isEmpty then
      { result := { success := true, messagesCount := 0 },
        state := finalizeTemplateRun s1 templateId (some runLogId) true 0 none finNow,
        midState := some s1,
        events := fetchEvents }
    else
      match o.summarize msgs tpl.customPrompt with
      | .error e =>
        { result := { success := false, error := some e },
          state := finalizeTemplateRun s1 templateId (some runLogId) false 0 (some e) finNow,
          midState := some s1,
          events := fetchEvents ++ [Event.summarizeCall msgs] }
      | .ok sr =>
        match o.send tpl.targetChatId sr.text with
        | .error e =>
          { result := { success := false, error := some e },
            state := finalizeTemplateRun s1 templateId (some runLogId) false 0 (some e) finNow,
            midState := some s1,
            events := fetchEvents ++
              [Event.summarizeCall msgs, Event.sendCall tpl.targetChatId sr.text] }
        | .ok _ =>
          { result := { success := true, messagesCount := msgs.length,
                        totalTokens := sr.totalTokens },
            state := finalizeTemplateRun s1 templateId (some runLogId) true
              msgs.length none finNow,
            midState := some s1,
            events := fetchEvents ++
              [Event.summarizeCall msgs, Event.sendCall tpl.targetChatId sr.text] }

/-! ### Run-now endpoint (`app/routers/templates.py`) -/

/-- `RunNowResponse` (`app/routers/templates.py`). -/
structure RunNowResponse where
  success : Bool
  messagesCount : Nat := 0
  totalTokens : Option Nat := none
  error : Option String := none
  deriving DecidableEq, Repr

/-- `_get_template`: load the template by id, scoped to the current user;
absence raises a 404. -/
def findTemplateForUser (s : DBState) (templateId userId : Nat) : Option Template :=
  s.templates.find? (fun t => t.id == templateId && t.userId == userId)

/-- `run_template_now`: reject with a busy error while `in_progress` is
true; otherwise set `in_progress = True`, commit, compute the optional
lookback override from `hours_back`, and invoke `process_template`
synchronously.  Returns the HTTP-level outcome (`.error 404` for a missing
template), the final state, and the external calls made. -/
def runTemplateNow (o : Oracles) (s : DBState) (templateId userId : Nat)
    (hoursBack : Option Nat) (now startNow finNow : Int) :
    Except Nat RunNowResponse × DBState × List Event :=
  match findTemplateForUser s templateId userId with
  | none => (.error 404, s, [])
  | some tpl =>
    if tpl.inProgress then
      (.ok { success := false, error := some "Обработка уже выполняется" }, s, [])
    else
      let s1 : DBState :=
        { s with templates := s.templates.map fun t =>
            if t.id == templateId then { t with inProgress := true } else t }
      let fromDt := match hoursBack with
        | some h => if h ≠ 0 then some (now - 3600 * (h : Int)) else none
        | none => none
      let run := processTemplate o s1 templateId fromDt startNow finNow
      (.ok { success := run.result.success,
             messagesCount := run.result.messagesCount,
             totalTokens := run.result.totalTokens,
             error := run.result.error },
       run.state, run.events)

/-! ### Summarizer retry policy (`app/deepseek_client.py`) -/

/-- The exception classes `_call_deepseek_api` can surface:
`httpx.HTTPStatusError`, `httpx.TimeoutException`, `httpx.ConnectError`,
or anything else. -/
inductive ApiError where
  | httpStatus (code : Nat)
  | timeout
  | connect
  | other (msg : String)
  deriving DecidableEq, Repr

/-- `retry_if_exception_type((httpx.HTTPStatusError, httpx.TimeoutException,
httpx.ConnectError))`: which exceptions tenacity retries. -/
def retryableError : ApiError → Bool
  | .httpStatus _ => true
  | .timeout => true
  | .connect => true
  | .other _ => false

/-- What the network does on one POST to the DeepSeek endpoint. -/
inductive HttpOutcome where
  | response (code : Nat) (body : String)
  | timedOut
  | connectFailed
  deriving DecidableEq, Repr

/-- The body of `_call_deepseek_api` for a single attempt: a response
outside the 2xx range makes `raise_for_status` raise `HTTPStatusError`,
which both branches of the `except` clause re-raise — including non-429
4xx codes. -/
def singleApiCall : HttpOutcome → Except ApiError String
  | .response code body =>
    if 200 ≤ code ∧ code ≤ 299 then .ok body else .error (.httpStatus code)
  | .timedOut => .error .timeout
  | .connectFailed => .error .connect

/-- `wait_exponential(multiplier=1, min=2, max=30)`: the sleep after the
`attemptNumber`-th failed attempt. -/
def waitSeconds (attemptNumber : Nat) : Nat :=
  max 2 (min 30 (2 ^ attemptNumber))

/-- The tenacity driver: run attempt `k`; on a retryable error with fuel
remaining, recurse on attempt `k + 1`; otherwise surface the last error
(`reraise=True`).  Returns the result together with the number of the last
attempt made. -/
def retryGo (attempt : Nat → Except ApiError String) :
    Nat → Nat → Except ApiError String × Nat
  | fuel, k =>
    match attempt k with
    | .ok b => (.ok b, k)
    | .error e =>
      match fuel with
      | 0 => (.error e, k)
      | fuel' + 1 =>
        if retryableError e then retryGo attempt fuel' (k + 1) else (.error e, k)

/-- `_call_deepseek_api` with its `@retry` decorator:
`stop_after_attempt(3)` means the first attempt plus at most two retries. -/
def callDeepseekApi (net : Nat → HttpOutcome) : Except ApiError String × Nat :=
  retryGo (fun k => singleApiCall (net k)) 2 1

/-! ### Concrete fixtures for witnesses and counterexamples -/

/-- A template row with representative fixed fields. -/
def sampleTemplate (id : Nat) (lastRunAt : Option Int) (inProgress : Bool)
    (sources : List SourceData) : Template :=
  { id := id, userId := 1, name := "digest", targetChatId := "@target",
    frequencyHours := 6, isActive := true, lastRunAt := lastRunAt,
    inProgress := inProgress, customPrompt := none, sources := sources }

/-- A database holding a single template and no run logs. -/
def sampleDB (t : Template) : DBState :=
  { templates := [t], runLogs := [], nextRunLogId := 1 }

/-- Oracles where every external call succeeds: each fetch yields `msgs`,
summarization yields a fixed summary, delivery succeeds. -/
def happyOracles (msgs : List Msg) : Oracles :=
  { fetch := fun _ _ => .ok msgs,
    summarize := fun _ _ => .ok { text := "summary", totalTokens := some 42 },
    send := fun _ _ => .ok () }

/-- Oracles where every fetch raises. -/
def fetchFailOracles : Oracles :=
  { fetch := fun _ _ => .error "fetch failed",
    summarize := fun _ _ => .ok { text := "summary" },
    send := fun _ _ => .ok () }

/-- Oracles where fetch yields `msgs` but delivery raises `sendErr`. -/
def sendFailOracles (msgs : List Msg) (sendErr : String) : Oracles :=
  { fetch := fun _ _ => .ok msgs,
    summarize := fun _ _ => .ok { text := "summary", totalTokens := some 42 },
    send := fun _ _ => .error sendErr }

/-! ## Helper lemmas -/

/-- `find?` commutes with a map that does not change the tested field. -/
theorem find?_map_of_pred_invariant {α : Type} (l : List α) (p : α → Bool)
    (f : α → α) (h : ∀ a, p (f a) = p a) :
    (l.map f).find? p = (l.find? p).map f := by
  rw [List.find?_map]
  have hpf : p ∘ f = p := by
    funext a
    simp [h a]
  rw [hpf]

/-- On a list whose elements have pairwise distinct ids, `find?` by the id
of a member returns exactly that member. -/
theorem find?_eq_of_mem_of_nodup (l : List Template) (t : Template)
    (hmem : t ∈ l) (hnodup : (l.map (·.id)).Nodup) :
    l.find? (fun u => u.id == t.id) = some t := by
  induction l with
  | nil => cases hmem
  | cons h tl ih =>
    simp only [List.map_cons, List.nodup_cons] at hnodup
    rcases List.mem_cons.mp hmem with rfl | hmem'
    · simp [List.find?_cons]
    · have hne : h.id ≠ t.id := by
        intro he
        exact hnodup.1 (he ▸ List.mem_map_of_mem (·.id) hmem')
      simp only [List.find?_cons]
      have : (h.id == t.id) = false := by
        simp [hne]
      simp [this, ih hmem' hnodup.2]

/-- Splitting message collection across an append of source lists. -/
theorem collectMessagesFromData_append
    (f : Ident → Option Int → Except String (List Msg)) (d : Option Int)
    (l1 l2 : List SourceData) :
    collectMessagesFromData f d (l1 ++ l2) =
      ((collectMessagesFromData f d l1).1 ++ (collectMessagesFromData f d l2).1,
       (collectMessagesFromData f d l1).2 ++ (collectMessagesFromData f d l2).2) := by
  induction l1 with
  | nil => simp [collectMessagesFromData]
  | cons s rest ih => simp [collectMessagesFromData, ih]

/-- When every candidate of a source fails, the candidate loop collects
nothing and attempts every candidate. -/
theorem tryCandidates_all_error
    (f : Ident → Option Int → Except String (List Msg)) (d : Option Int)
    (cands : List Ident) (h : ∀ c ∈ cands, ∃ e, f c d = .error e) :
    tryCandidates f d cands = ([], cands) := by
  induction cands with
  | nil => rfl
  | cons c rest ih =>
    obtain ⟨e, he⟩ := h c (List.mem_cons_self c rest)
    have hrest := ih (fun c' hc' => h c' (List.mem_cons_of_mem c hc'))
    simp [tryCandidates, he, hrest]

/-- Looking a template up is unaffected by creating a run log. -/
theorem findTemplate_createRunningLog (s : DBState) (tpl : Template)
    (startNow : Int) (templateId : Nat) :
    findTemplate (createRunningLog s tpl startNow) templateId =
      findTemplate s templateId := rfl

/-- How finalization rewrites the finalized template row. -/
theorem findTemplate_finalize (s : DBState) (templateId : Nat)
    (runLogId : Option Nat) (success : Bool) (messagesCount : Nat)
    (errorMessage : Option String) (now : Int) :
    findTemplate (finalizeTemplateRun s templateId runLogId success
        messagesCount errorMessage now) templateId =
      (findTemplate s templateId).map (fun t =>
        if success then { t with inProgress := false, lastRunAt := some now }
        else { t with inProgress := false }) := by
  unfold findTemplate finalizeTemplateRun
  simp only []
  rw [find?_map_of_pred_invariant]
  · cases hf : s.templates.find? (fun t => t.id == templateId) with
    | none => rfl
    | some t =>
      have heq : t.id = templateId := by simpa using List.find?_some hf
      cases success <;> simp [heq]
  · intro t
    by_cases ht : t.id = templateId <;> cases success <;> simp [ht]

/-- How finalization rewrites the finalized run-log row (for a truthy,
i.e. non-zero, run-log id). -/
theorem findRunLog_finalize (s : DBState) (templateId : Nat) (runLogId : Nat)
    (success : Bool) (messagesCount : Nat) (errorMessage : Option String)
    (now : Int) (hrid : runLogId ≠ 0) :
    findRunLog (finalizeTemplateRun s templateId (some runLogId) success
        messagesCount errorMessage now) runLogId =
      (findRunLog s runLogId).map (fun rl =>
        let rl1 := { rl with
          status := if success then "success" else "error",
          messagesCount := messagesCount,
          finishedAt := some now }
        match errorMessage with
        | some e => if e ≠ "" then { rl1 with errorMessage := some e } else rl1
        | none => rl1) := by
  unfold findRunLog finalizeTemplateRun
  simp only []
  rw [if_pos hrid, find?_map_of_pred_invariant]
  · cases hf : s.runLogs.find? (fun rl => rl.id == runLogId) with
    | none => rfl
    | some rl =>
      have heq : rl.id = runLogId := by simpa using List.find?_some hf
      cases errorMessage <;> simp [heq]
  · intro rl
    by_cases hr : rl.id = runLogId
    · cases errorMessage with
      | none => simp [hr]
      | some e => by_cases he : e = "" <;> simp [hr, he]
    · simp [hr]

/-- The freshly created running log is found by its id when that id is not
already taken by an existing row. -/
theorem findRunLog_createRunningLog (s : DBState) (tpl : Template)
    (startNow : Int)
    (hfresh : ∀ rl ∈ s.runLogs, rl.id ≠ s.nextRunLogId) :
    findRunLog (createRunningLog s tpl startNow) s.nextRunLogId =
      some { id := s.nextRunLogId, templateId := tpl.id, startedAt := startNow,
             finishedAt := none, status := "running", messagesCount := 0,
             errorMessage := none } := by
  unfold findRunLog createRunningLog
  simp only [List.find?_append]
  have hnone : s.runLogs.find? (fun rl => rl.id == s.nextRunLogId) = none := by
    rw [List.find?_eq_none]
    intro rl hrl
    simp [hfresh rl hrl]
  simp [hnone, List.find?_cons]

/-- Shape of any run on an existing template: the committed intermediate
state is the one with the fresh running log, and the final state is a
finalization of it keyed by the created run-log id. -/
theorem processTemplate_found_shape (o : Oracles) (s0 : DBState)
    (templateId : Nat) (fromOverride : Option Int) (startNow finNow : Int)
    (tpl : Template) (hfind : findTemplate s0 templateId = some tpl) :
    ∃ success messagesCount errorMessage,
      (processTemplate o s0 templateId fromOverride startNow finNow).midState =
        some (createRunningLog s0 tpl startNow)
      ∧ (processTemplate o s0 templateId fromOverride startNow finNow).state =
          finalizeTemplateRun (createRunningLog s0 tpl startNow) templateId
            (some s0.nextRunLogId) success messagesCount errorMessage finNow := by
  unfold processTemplate
  rw [hfind]
  simp only []
  split
  · exact ⟨true, 0, none, rfl, rfl⟩
  · split
    · exact ⟨false, 0, some _, rfl, rfl⟩
    · split
      · exact ⟨false, 0, some _, rfl, rfl⟩
      · exact ⟨true, _, none, rfl, rfl⟩

/-- Full description of a run whose collection phase yields no messages. -/
theorem processTemplate_empty_eq (o : Oracles) (s0 : DBState)
    (templateId : Nat) (fromOverride : Option Int) (startNow finNow : Int)
    (tpl : Template) (hfind : findTemplate s0 templateId = some tpl)
    (hempty : (collectMessagesFromData o.fetch (effectiveFrom fromOverride tpl)
      tpl.sources).1 = []) :
    processTemplate o s0 templateId fromOverride startNow finNow =
      { result := { success := true, messagesCount := 0 },
        state := finalizeTemplateRun (createRunningLog s0 tpl startNow)
          templateId (some s0.nextRunLogId) true 0 none finNow,
        midState := some (createRunningLog s0 tpl startNow),
        events := (collectMessagesFromData o.fetch
            (effectiveFrom fromOverride tpl) tpl.sources).2.map
          (fun c => Event.fetchCall c (effectiveFrom fromOverride tpl)) } := by
  unfold processTemplate
  rw [hfind]
  simp [hempty]

/-- Full description of a run aborted by a summarizer failure. -/
theorem processTemplate_summarize_error_eq (o : Oracles) (s0 : DBState)
    (templateId : Nat) (fromOverride : Option Int) (startNow finNow : Int)
    (tpl : Template) (e : String)
    (hfind : findTemplate s0 templateId = some tpl)
    (hne : (collectMessagesFromData o.fetch (effectiveFrom fromOverride tpl)
      tpl.sources).1 ≠ [])
    (hsum : o.summarize (collectMessagesFromData o.fetch
        (effectiveFrom fromOverride tpl) tpl.sources).1 tpl.customPrompt =
      .error e) :
    processTemplate o s0 templateId fromOverride startNow finNow =
      { result := { success := false, error := some e },
        state := finalizeTemplateRun (createRunningLog s0 tpl startNow)
          templateId (some s0.nextRunLogId) false 0 (some e) finNow,
        midState := some (createRunningLog s0 tpl startNow),
        events := (collectMessagesFromData o.fetch
            (effectiveFrom fromOverride tpl) tpl.sources).2.map
          (fun c => Event.fetchCall c (effectiveFrom fromOverride tpl)) ++
          [Event.summarizeCall (collectMessagesFromData o.fetch
            (effectiveFrom fromOverride tpl) tpl.sources).1] } := by
  unfold processTemplate
  rw [hfind]
  simp [List.isEmpty_iff, hne, hsum]

/-- Full description of a run aborted by a delivery failure. -/
theorem processTemplate_send_error_eq (o : Oracles) (s0 : DBState)
    (templateId : Nat) (fromOverride : Option Int) (startNow finNow : Int)
    (tpl : Template) (sr : SummaryResult) (e : String)
    (hfind : findTemplate s0 templateId = some tpl)
    (hne : (collectMessagesFromData o.fetch (effectiveFrom fromOverride tpl)
      tpl.sources).1 ≠ [])
    (hsum : o.summarize (collectMessagesFromData o.fetch
        (effectiveFrom fromOverride tpl) tpl.sources).1 tpl.customPrompt =
      .ok sr)
    (hsend : o.send tpl.targetChatId sr.text = .error e) :
    processTemplate o s0 templateId fromOverride startNow finNow =
      { result := { success := false, error := some e },
        state := finalizeTemplateRun (createRunningLog s0 tpl startNow)
          templateId (some s0.nextRunLogId) false 0 (some e) finNow,
        midState := some (createRunningLog s0 tpl startNow),
        events := (collectMessagesFromData o.fetch
            (effectiveFrom fromOverride tpl) tpl.sources).2.map
          (fun c => Event.fetchCall c (effectiveFrom fromOverride tpl)) ++
          [Event.summarizeCall (collectMessagesFromData o.fetch
              (effectiveFrom fromOverride tpl) tpl.sources).1,
           Event.sendCall tpl.targetChatId sr.text] } := by
  unfold processTemplate
  rw [hfind]
  simp [List.isEmpty_iff, hne, hsum, hsend]

/-! ## Claims -/

/-- C2: `is_template_due(job, now)` is a pure function of
`(last_run_at, frequency_hours, now)`; it is true whenever `last_run_at`
is absent, false when `now` is strictly before
`last_run_at + frequency_hours`, and true from that boundary on. -/
theorem claim_C2_is_template_due (t : Template) (now : Int) :
    (∀ t' : Template, t'.lastRunAt = t.lastRunAt →
      t'.frequencyHours = t.frequencyHours →
      is_template_due t' now = is_template_due t now)
    ∧ (t.lastRunAt = none → is_template_due t now = true)
    ∧ (∀ last : Int, t.lastRunAt = some last →
        (now < last + 3600 * (t.frequencyHours : Int) →
          is_template_due t now = false)
        ∧ (now ≥ last + 3600 * (t.frequencyHours : Int) →
          is_template_due t now = true)) := by
  refine ⟨?_, ?_, ?_⟩
  · intro t' h1 h2
    simp [is_template_due, h1, h2]
  · intro h
    simp [is_template_due, h]
  · intro last h
    constructor
    · intro hlt
      simp only [is_template_due, h, decide_eq_false_iff_not]
      omega
    · intro hge
      simp only [is_template_due, h, decide_eq_true_eq]
      omega

/-- Witness for C2 at a job last run at time 0 with a 6-hour cadence:
never-run jobs are due, the instant just before the boundary is not due,
and the boundary instant (21600 s = 6 h) is due. -/
theorem claim_C2_witness :
    is_template_due (sampleTemplate 1 none false []) 5 = true
    ∧ is_template_due (sampleTemplate 1 (some 0) false []) 21599 = false
    ∧ is_template_due (sampleTemplate 1 (some 0) false []) 21600 = true :=
  ⟨(claim_C2_is_template_due (sampleTemplate 1 none false []) 5).2.1 rfl,
   ((claim_C2_is_template_due (sampleTemplate 1 (some 0) false []) 21599).2.2
      0 rfl).1 (by decide),
   ((claim_C2_is_template_due (sampleTemplate 1 (some 0) false []) 21600).2.2
      0 rfl).2 (by decide)⟩

/-- C4: when every candidate of one source fails and the remaining sources
are untouched, collection returns the concatenation of the other sources'
results and the failing source contributes nothing; no failure escapes the
aggregator (its Lean type is total: errors are absorbed candidate by
candidate). -/
theorem claim_C4_partial_failure
    (f : Ident → Option Int → Except String (List Msg)) (d : Option Int)
    (pre post : List SourceData) (bad : SourceData)
    (hbad : ∀ c ∈ sourceCandidates bad, ∃ e, f c d = .error e) :
    (collectMessagesFromData f d (pre ++ bad :: post)).1 =
      (collectMessagesFromData f d pre).1 ++
        (collectMessagesFromData f d post).1 := by
  have hsrc : collectFromSource f d bad = ([], sourceCandidates bad) :=
    tryCandidates_all_error f d (sourceCandidates bad) hbad
  rw [collectMessagesFromData_append]
  simp [collectMessagesFromData, hsrc]

/-- Witness for C4: two healthy sources around one whose fetch always
raises; collection yields exactly the two healthy sources' messages. -/
theorem claim_C4_witness :
    (collectMessagesFromData
      (fun c _ => match c with
        | .strId "bad" => .error "boom"
        | .strId s => .ok [{ text := s }]
        | .numId _ => .error "boom")
      none
      [{ identifier := "good1", chatId := none },
       { identifier := "bad", chatId := none },
       { identifier := "good2", chatId := none }]).1 =
      [{ text := "good1" }, { text := "good2" }] := by
  have h := claim_C4_partial_failure
    (fun c _ => match c with
      | .strId "bad" => .error "boom"
      | .strId s => .ok [{ text := s }]
      | .numId _ => .error "boom")
    none
    [{ identifier := "good1", chatId := none }]
    [{ identifier := "good2", chatId := none }]
    { identifier := "bad", chatId := none }
    (by
      intro c hc
      refine ⟨"boom", ?_⟩
      simp only [sourceCandidates] at hc
      simp at hc
      subst hc
      rfl)
  simpa using h

/-- C5 counterexample: for a source with identifier `"chan"` and cached
chat id `5`, even with every fetch succeeding, the first (and only)
attempted candidate is the human-readable identifier, not the cached
numeric identifier — the code tries `identifier` first, then `chat_id`. -/
theorem claim_C5_counterexample :
    ((collectFromSource (fun _ _ => .ok ([] : List Msg)) none
        { identifier := "chan", chatId := some 5 }).2.head? =
      some (Ident.strId "chan"))
    ∧ ((collectFromSource (fun _ _ => .ok ([] : List Msg)) none
        { identifier := "chan", chatId := some 5 }).2.head? ≠
      some (Ident.numId 5)) := by
  decide

/-- C5 amended: the aggregator attempts the fetch using the human-readable
identifier first whenever it is non-empty; the cached resolved identifier
is attempted only when that fetch fails (when it succeeds, no numeric
candidate is attempted at all). -/
theorem claim_C5_amended (f : Ident → Option Int → Except String (List Msg))
    (d : Option Int) (s : SourceData) (hid : s.identifier ≠ "") :
    ((collectFromSource f d s).2.head? = some (Ident.strId s.identifier))
    ∧ (∀ msgs, f (Ident.strId s.identifier) d = .ok msgs →
        ∀ c : Int, Ident.numId c ∉ (collectFromSource f d s).2) := by
  obtain ⟨rest, hc⟩ : ∃ rest,
      sourceCandidates s = Ident.strId s.identifier :: rest := by
    refine ⟨(match s.chatId with
      | some c => if c = 0 then [] else [Ident.numId c]
      | none => []), ?_⟩
    simp [sourceCandidates, hid]
  constructor
  · cases hf : f (Ident.strId s.identifier) d with
    | ok msgs => simp [collectFromSource, hc, tryCandidates, hf]
    | error e => simp [collectFromSource, hc, tryCandidates, hf]
  · intro msgs hf c
    simp [collectFromSource, hc, tryCandidates, hf]

/-- Witness for the amended C5: for the source `("chan", 5)` with an
always-succeeding fetch, the first attempt is `"chan"` and no numeric
candidate is ever attempted. -/
theorem claim_C5_witness :
    ((collectFromSource (fun _ _ => .ok [Msg.mk "a" none]) none
        { identifier := "chan", chatId := some 5 }).2.head? =
      some (Ident.strId "chan"))
    ∧ (Ident.numId 5 ∉ (collectFromSource (fun _ _ => .ok [Msg.mk "a" none])
        none { identifier := "chan", chatId := some 5 }).2) :=
  ⟨(claim_C5_amended (fun _ _ => .ok [Msg.mk "a" none]) none
      { identifier := "chan", chatId := some 5 } (by decide)).1,
   (claim_C5_amended (fun _ _ => .ok [Msg.mk "a" none]) none
      { identifier := "chan", chatId := some 5 } (by decide)).2
      [Msg.mk "a" none] rfl 5⟩

/-- Finalization rewrites template rows but never their source lists. -/
theorem finalize_sources_invariant (s : DBState) (templateId : Nat)
    (runLogId : Option Nat) (success : Bool) (messagesCount : Nat)
    (errorMessage : Option String) (now : Int) :
    (finalizeTemplateRun s templateId runLogId success messagesCount
        errorMessage now).templates.map (·.sources) =
      s.templates.map (·.sources) := by
  simp only [finalizeTemplateRun, List.map_map]
  apply List.map_congr_left
  intro t _
  by_cases ht : t.id = templateId <;> by_cases hs : success <;>
    simp [ht, hs]

/-- C6 counterexample: a template whose single source carries the cached
chat id `7` and an empty identifier; the fetch via the cached id is
attempted and fails, yet after the run the stored source still carries
`chat_id = 7` — the cache is not cleared. -/
theorem claim_C6_counterexample :
    ((processTemplate fetchFailOracles
        (sampleDB (sampleTemplate 1 none false
          [{ identifier := "", chatId := some 7 }]))
        1 none 10 20).state.templates.map (·.sources) =
      [[{ identifier := "", chatId := some 7 }]])
    ∧ ((processTemplate fetchFailOracles
        (sampleDB (sampleTemplate 1 none false
          [{ identifier := "", chatId := some 7 }]))
        1 none 10 20).events = [Event.fetchCall (Ident.numId 7) none]) := by
  decide

/-- C6 amended: a processor run never modifies any source reference — in
particular a cached resolved identifier whose fetch failed is left in
place (only logged and skipped), not invalidated. -/
theorem claim_C6_amended (o : Oracles) (s : DBState) (templateId : Nat)
    (fromOverride : Option Int) (startNow finNow : Int) :
    (processTemplate o s templateId fromOverride startNow finNow).state.templates.map
        (·.sources) =
      s.templates.map (·.sources) := by
  unfold processTemplate
  cases hfind : findTemplate s templateId with
  | none => rfl
  | some tpl =>
    simp only []
    split
    · exact finalize_sources_invariant _ _ _ _ _ _ _
    · split
      · exact finalize_sources_invariant _ _ _ _ _ _ _
      · split
        · exact finalize_sources_invariant _ _ _ _ _ _ _
        · exact finalize_sources_invariant _ _ _ _ _ _ _

/-- C3: when collection yields zero messages, the run makes no summarizer
and no delivery call, finalizes the run record as `success` with message
count `0` and finish time `now`, advances the template's `last_run_at` to
`now` while clearing `in_progress`, and returns a successful outcome with
zero messages. -/
theorem claim_C3_zero_messages (o : Oracles) (s0 : DBState) (templateId : Nat)
    (fromOverride : Option Int) (startNow finNow : Int) (tpl : Template)
    (hfind : findTemplate s0 templateId = some tpl)
    (hempty : (collectMessagesFromData o.fetch (effectiveFrom fromOverride tpl)
      tpl.sources).1 = [])
    (hfresh : ∀ rl ∈ s0.runLogs, rl.id ≠ s0.nextRunLogId)
    (hpos : s0.nextRunLogId ≠ 0) :
    (∀ e ∈ (processTemplate o s0 templateId fromOverride startNow finNow).events,
      e.isSummarize = false ∧ e.isSend = false)
    ∧ findRunLog (processTemplate o s0 templateId fromOverride startNow
          finNow).state s0.nextRunLogId =
        some { id := s0.nextRunLogId, templateId := tpl.id,
               startedAt := startNow, finishedAt := some finNow,
               status := "success", messagesCount := 0, errorMessage := none }
    ∧ findTemplate (processTemplate o s0 templateId fromOverride startNow
          finNow).state templateId =
        some { tpl with inProgress := false, lastRunAt := some finNow }
    ∧ (processTemplate o s0 templateId fromOverride startNow finNow).result =
        { success := true, messagesCount := 0 } := by
  rw [processTemplate_empty_eq o s0 templateId fromOverride startNow finNow
    tpl hfind hempty]
  refine ⟨?_, ?_, ?_, rfl⟩
  · intro e he
    simp only [List.mem_map] at he
    obtain ⟨c, _, rfl⟩ := he
    exact ⟨rfl, rfl⟩
  · rw [findRunLog_finalize _ _ _ _ _ _ _ hpos,
      findRunLog_createRunningLog _ _ _ hfresh]
    rfl
  · rw [findTemplate_finalize, findTemplate_createRunningLog, hfind]
    rfl

/-- Witness for C3: one template with one source, fetch returns no
messages; the run log ends `success`/count 0, `last_run_at` advances, and
the only external call is the single fetch. -/
theorem claim_C3_witness :
    (∀ e ∈ (processTemplate (happyOracles [])
        (sampleDB (sampleTemplate 1 none true
          [{ identifier := "chan", chatId := none }])) 1 none 10 20).events,
      e.isSummarize = false ∧ e.isSend = false)
    ∧ findRunLog (processTemplate (happyOracles [])
          (sampleDB (sampleTemplate 1 none true
            [{ identifier := "chan", chatId := none }])) 1 none 10 20).state 1 =
        some { id := 1, templateId := 1, startedAt := 10,
               finishedAt := some 20, status := "success",
               messagesCount := 0, errorMessage := none }
    ∧ findTemplate (processTemplate (happyOracles [])
          (sampleDB (sampleTemplate 1 none true
            [{ identifier := "chan", chatId := none }])) 1 none 10 20).state 1 =
        some { sampleTemplate 1 none true
            [{ identifier := "chan", chatId := none }] with
          inProgress := false, lastRunAt := some 20 }
    ∧ (processTemplate (happyOracles [])
        (sampleDB (sampleTemplate 1 none true
          [{ identifier := "chan", chatId := none }])) 1 none 10 20).result =
        { success := true, messagesCount := 0 } :=
  claim_C3_zero_messages (happyOracles [])
    (sampleDB (sampleTemplate 1 none true
      [{ identifier := "chan", chatId := none }])) 1 none 10 20
    (sampleTemplate 1 none true [{ identifier := "chan", chatId := none }])
    (by decide) (by decide) (by decide) (by decide)

/-- C9 counterexample: on a vanished template the operation does abort
with no run record and no network call, but the returned outcome is NOT
error-free — it carries `success = False` and the error string
`"Template not found"`. -/
theorem claim_C9_counterexample :
    ¬((processTemplate (happyOracles [])
        { templates := [], runLogs := [], nextRunLogId := 1 }
        1 none 10 20).result.success = true
      ∨ (processTemplate (happyOracles [])
          { templates := [], runLogs := [], nextRunLogId := 1 }
          1 none 10 20).result.error = none)
    ∧ (processTemplate (happyOracles [])
        { templates := [], runLogs := [], nextRunLogId := 1 }
        1 none 10 20).result.error = some "Template not found"
    ∧ (processTemplate (happyOracles [])
        { templates := [], runLogs := [], nextRunLogId := 1 }
        1 none 10 20).state =
      { templates := [], runLogs := [], nextRunLogId := 1 }
    ∧ (processTemplate (happyOracles [])
        { templates := [], runLogs := [], nextRunLogId := 1 }
        1 none 10 20).events = [] := by
  decide

/-- C9 amended: on a template id that no longer exists at load time the
operation aborts before creating a run record and before any network
call, raises no exception, and reports the condition through the normal
result path — as an unsuccessful outcome with error
`"Template not found"` (not as an error-free outcome). -/
theorem claim_C9_amended (o : Oracles) (s0 : DBState) (templateId : Nat)
    (fromOverride : Option Int) (startNow finNow : Int)
    (hfind : findTemplate s0 templateId = none) :
    processTemplate o s0 templateId fromOverride startNow finNow =
      { result := { success := false, error := some "Template not found" },
        state := s0, midState := none, events := [] } := by
  unfold processTemplate
  rw [hfind]

/-- Witness for the amended C9 on an empty database. -/
theorem claim_C9_witness :
    processTemplate fetchFailOracles
        { templates := [], runLogs := [], nextRunLogId := 5 } 3 none 10 20 =
      { result := { success := false, error := some "Template not found" },
        state := { templates := [], runLogs := [], nextRunLogId := 5 },
        midState := none, events := [] } :=
  claim_C9_amended fetchFailOracles
    { templates := [], runLogs := [], nextRunLogId := 5 } 3 none 10 20
    (by decide)

/-- C8 counterexample: a run that collects and summarizes two messages and
then fails on delivery.  The events show two messages were processed
(`summarizeCall` with both), yet the finalized run record carries
`messages_count = 0`, not `2` — the error path of `process_template` never
passes the collected count to `_finalize_template_run`.  The error string
is stored verbatim. -/
theorem claim_C8_counterexample :
    ((processTemplate (sendFailOracles [{ text := "a" }, { text := "b" }] "boom")
        (sampleDB (sampleTemplate 1 none true
          [{ identifier := "chan", chatId := none }])) 1 none 10 20).events =
      [Event.fetchCall (Ident.strId "chan") none,
       Event.summarizeCall [{ text := "a" }, { text := "b" }],
       Event.sendCall "@target" "summary"])
    ∧ (findRunLog (processTemplate
          (sendFailOracles [{ text := "a" }, { text := "b" }] "boom")
          (sampleDB (sampleTemplate 1 none true
            [{ identifier := "chan", chatId := none }])) 1 none 10 20).state 1 =
        some { id := 1, templateId := 1, startedAt := 10,
               finishedAt := some 20, status := "error", messagesCount := 0,
               errorMessage := some "boom" })
    ∧ ((findRunLog (processTemplate
          (sendFailOracles [{ text := "a" }, { text := "b" }] "boom")
          (sampleDB (sampleTemplate 1 none true
            [{ identifier := "chan", chatId := none }])) 1 none 10 20).state 1).map
        (·.messagesCount) ≠ some 2) := by
  decide

/-- C8 amended: for every run that fails with an exception during
summarization or delivery (collection failures never escape the
aggregator), the finalize phase sets the run record's status to `error`,
its end timestamp to now, its message count to `0` — the number of
messages collected in that run is not recorded on the error path — and
the error description stored verbatim (untruncated) when non-empty; the
returned outcome is unsuccessful and carries the same description. -/
theorem claim_C8_amended (o : Oracles) (s0 : DBState) (templateId : Nat)
    (fromOverride : Option Int) (startNow finNow : Int) (tpl : Template)
    (e : String)
    (hfind : findTemplate s0 templateId = some tpl)
    (hne : (collectMessagesFromData o.fetch (effectiveFrom fromOverride tpl)
      tpl.sources).1 ≠ [])
    (hfail : o.summarize (collectMessagesFromData o.fetch
        (effectiveFrom fromOverride tpl) tpl.sources).1 tpl.customPrompt =
        .error e
      ∨ ∃ sr, o.summarize (collectMessagesFromData o.fetch
          (effectiveFrom fromOverride tpl) tpl.sources).1 tpl.customPrompt =
          .ok sr
        ∧ o.send tpl.targetChatId sr.text = .error e)
    (hfresh : ∀ rl ∈ s0.runLogs, rl.id ≠ s0.nextRunLogId)
    (hpos : s0.nextRunLogId ≠ 0)
    (hestr : e ≠ "") :
    findRunLog (processTemplate o s0 templateId fromOverride startNow
        finNow).state s0.nextRunLogId =
      some { id := s0.nextRunLogId, templateId := tpl.id,
             startedAt := startNow, finishedAt := some finNow,
             status := "error", messagesCount := 0, errorMessage := some e }
    ∧ (processTemplate o s0 templateId fromOverride startNow finNow).result =
        { success := false, error := some e }
    ∧ findTemplate (processTemplate o s0 templateId fromOverride startNow
          finNow).state templateId = some { tpl with inProgress := false } := by
  have hrun : (processTemplate o s0 templateId fromOverride startNow
        finNow).state =
      finalizeTemplateRun (createRunningLog s0 tpl startNow) templateId
        (some s0.nextRunLogId) false 0 (some e) finNow
    ∧ (processTemplate o s0 templateId fromOverride startNow finNow).result =
      { success := false, error := some e } := by
    rcases hfail with hsum | ⟨sr, hsum, hsend⟩
    · rw [processTemplate_summarize_error_eq o s0 templateId fromOverride
        startNow finNow tpl e hfind hne hsum]
      exact ⟨rfl, rfl⟩
    · rw [processTemplate_send_error_eq o s0 templateId fromOverride
        startNow finNow tpl sr e hfind hne hsum hsend]
      exact ⟨rfl, rfl⟩
  refine ⟨?_, hrun.2, ?_⟩
  · rw [hrun.1, findRunLog_finalize _ _ _ _ _ _ _ hpos,
      findRunLog_createRunningLog _ _ _ hfresh]
    simp [hestr]
  · rw [hrun.1, findTemplate_finalize, findTemplate_createRunningLog, hfind]
    rfl

/-- Witness for the amended C8 at the delivery-failure scenario: the run
record ends `error`, finish time 20, count 0, message `"boom"`. -/
theorem claim_C8_witness :
    findRunLog (processTemplate
        (sendFailOracles [{ text := "a" }, { text := "b" }] "boom")
        (sampleDB (sampleTemplate 1 none true
          [{ identifier := "chan", chatId := none }])) 1 none 10 20).state 1 =
      some { id := 1, templateId := 1, startedAt := 10, finishedAt := some 20,
             status := "error", messagesCount := 0,
             errorMessage := some "boom" }
    ∧ (processTemplate
        (sendFailOracles [{ text := "a" }, { text := "b" }] "boom")
        (sampleDB (sampleTemplate 1 none true
          [{ identifier := "chan", chatId := none }])) 1 none 10 20).result =
      { success := false, error := some "boom" }
    ∧ findTemplate (processTemplate
          (sendFailOracles [{ text := "a" }, { text := "b" }] "boom")
          (sampleDB (sampleTemplate 1 none true
            [{ identifier := "chan", chatId := none }])) 1 none 10 20).state 1 =
        some { sampleTemplate 1 none true
            [{ identifier := "chan", chatId := none }] with
          inProgress := false } :=
  claim_C8_amended
    (sendFailOracles [{ text := "a" }, { text := "b" }] "boom")
    (sampleDB (sampleTemplate 1 none true
      [{ identifier := "chan", chatId := none }])) 1 none 10 20
    (sampleTemplate 1 none true [{ identifier := "chan", chatId := none }])
    "boom" (by decide) (by decide)
    (Or.inr ⟨{ text := "summary", totalTokens := some 42 }, rfl, rfl⟩)
    (by decide) (by decide) (by decide)

/-- C1: once the scheduler's dispatch commit marks a job in-progress, the
flag reads true in the dispatched state and in the intermediate state the
processor commits (run-log creation), and reads false in the state the
processor's finalization commits — whichever way the run ends (the
finalize transaction is modelled as succeeding). -/
theorem claim_C1_in_progress_flag (s0 : DBState) (now : Int) (o : Oracles)
    (templateId : Nat) (fromOverride : Option Int) (startNow finNow : Int)
    (hnodup : (s0.templates.map (·.id)).Nodup)
    (hmem : templateId ∈ (scheduleDueTemplates s0 now).2) :
    ((findTemplate (scheduleDueTemplates s0 now).1 templateId).map
        (·.inProgress) = some true)
    ∧ (∀ sMid, (processTemplate o (scheduleDueTemplates s0 now).1 templateId
          fromOverride startNow finNow).midState = some sMid →
        (findTemplate sMid templateId).map (·.inProgress) = some true)
    ∧ ((findTemplate (processTemplate o (scheduleDueTemplates s0 now).1
          templateId fromOverride startNow finNow).state templateId).map
        (·.inProgress) = some false) := by
  simp only [scheduleDueTemplates, List.mem_map] at hmem
  obtain ⟨t, htf, hid⟩ := hmem
  rw [List.mem_filter] at htf
  obtain ⟨htmem, hdue⟩ := htf
  subst hid
  have hfind0 : s0.templates.find? (fun u => u.id == t.id) = some t :=
    find?_eq_of_mem_of_nodup s0.templates t htmem hnodup
  have hidpres : ∀ u : Template,
      ((if dueForDispatch u now then { u with inProgress := true } else u).id ==
        t.id) = (u.id == t.id) := by
    intro u
    by_cases hu : dueForDispatch u now <;> simp [hu]
  have hfind1 : findTemplate (scheduleDueTemplates s0 now).1 t.id =
      some { t with inProgress := true } := by
    show (s0.templates.map fun u =>
      if dueForDispatch u now then { u with inProgress := true } else u).find?
        (fun u => u.id == t.id) = _
    rw [find?_map_of_pred_invariant _ _ _ hidpres, hfind0]
    simp [hdue]
  obtain ⟨succ, mc, em, hmid, hstate⟩ := processTemplate_found_shape o
    (scheduleDueTemplates s0 now).1 t.id fromOverride startNow finNow
    { t with inProgress := true } hfind1
  refine ⟨by rw [hfind1]; rfl, ?_, ?_⟩
  · intro sMid hsMid
    rw [hmid] at hsMid
    injection hsMid with h
    rw [← h, findTemplate_createRunningLog, hfind1]
    rfl
  · rw [hstate, findTemplate_finalize, findTemplate_createRunningLog, hfind1]
    cases succ <;> rfl

/-- Witness for C1: one active idle never-run template; the scheduler
dispatches it, the flag is true at dispatch and at run-log creation, and
false after the run's finalization. -/
theorem claim_C1_witness :
    ((findTemplate (scheduleDueTemplates
        (sampleDB (sampleTemplate 1 none false [])) 0).1 1).map
      (·.inProgress) = some true)
    ∧ (∀ sMid, (processTemplate (happyOracles [])
          (scheduleDueTemplates (sampleDB (sampleTemplate 1 none false []))
            0).1 1 none 10 20).midState = some sMid →
        (findTemplate sMid 1).map (·.inProgress) = some true)
    ∧ ((findTemplate (processTemplate (happyOracles [])
          (scheduleDueTemplates (sampleDB (sampleTemplate 1 none false []))
            0).1 1 none 10 20).state 1).map (·.inProgress) = some false) :=
  claim_C1_in_progress_flag (sampleDB (sampleTemplate 1 none false [])) 0
    (happyOracles []) 1 none 10 20 (by decide) (by decide)

/-- Under unique template ids, the user-scoped lookup agrees with the
id-scoped lookup. -/
theorem findTemplate_of_findTemplateForUser (s : DBState)
    (templateId userId : Nat) (tpl : Template)
    (hnodup : (s.templates.map (·.id)).Nodup)
    (h : findTemplateForUser s templateId userId = some tpl) :
    findTemplate s templateId = some tpl ∧ tpl.id = templateId := by
  have hmem := List.mem_of_find?_eq_some h
  have hp := List.find?_some h
  have hid : tpl.id = templateId := by
    simp only [Bool.and_eq_true, beq_iff_eq] at hp
    exact hp.1
  have hfind := find?_eq_of_mem_of_nodup s.templates tpl hmem hnodup
  refine ⟨?_, hid⟩
  unfold findTemplate
  rw [← hid]
  exact hfind

/-- C10: the synchronous run-now endpoint refuses a job whose in-progress
flag is already true — unsuccessful response with a busy error, no
processor invocation, no external call, state unchanged — and only when
the flag is false does it commit the flag to true and then invoke
`process_template` on the committed state. -/
theorem claim_C10_run_now_guard (o : Oracles) (s : DBState)
    (templateId userId : Nat) (hoursBack : Option Nat)
    (now startNow finNow : Int) (tpl : Template)
    (hnodup : (s.templates.map (·.id)).Nodup)
    (hfind : findTemplateForUser s templateId userId = some tpl) :
    (tpl.inProgress = true →
      runTemplateNow o s templateId userId hoursBack now startNow finNow =
        (.ok { success := false, error := some "Обработка уже выполняется" },
         s, []))
    ∧ (tpl.inProgress = false →
        (findTemplate { s with templates := s.templates.map fun t =>
            if t.id == templateId then { t with inProgress := true } else t }
          templateId).map (·.inProgress) = some true
        ∧ runTemplateNow o s templateId userId hoursBack now startNow finNow =
            (let run := processTemplate o
              { s with templates := s.templates.map fun t =>
                  if t.id == templateId then { t with inProgress := true }
                  else t }
              templateId
              (match hoursBack with
               | some h => if h ≠ 0 then some (now - 3600 * (h : Int)) else none
               | none => none)
              startNow finNow
             (.ok { success := run.result.success,
                    messagesCount := run.result.messagesCount,
                    totalTokens := run.result.totalTokens,
                    error := run.result.error }, run.state, run.events))) := by
  obtain ⟨hfindid, hid⟩ :=
    findTemplate_of_findTemplateForUser s templateId userId tpl hnodup hfind
  constructor
  · intro hbusy
    unfold runTemplateNow
    rw [hfind]
    simp [hbusy]
  · intro hidle
    constructor
    · have hidpres : ∀ u : Template,
          ((if u.id == templateId then { u with inProgress := true } else u).id ==
            templateId) = (u.id == templateId) := by
        intro u
        by_cases hu : u.id = templateId <;> simp [hu]
      show Option.map (·.inProgress)
        ((s.templates.map fun t =>
          if t.id == templateId then { t with inProgress := true } else t).find?
            (fun u => u.id == templateId)) = some true
      rw [find?_map_of_pred_invariant _ _ _ hidpres]
      have : s.templates.find? (fun u => u.id == templateId) = some tpl := hfindid
      rw [this]
      simp [hid]
    · unfold runTemplateNow
      rw [hfind]
      simp [hidle]

/-- Witness for C10: a busy template is refused with the state unchanged
and no events; an idle one has its flag committed true before the
processor runs. -/
theorem claim_C10_witness :
    (runTemplateNow (happyOracles []) (sampleDB (sampleTemplate 1 none true []))
        1 1 none 0 10 20 =
      (.ok { success := false, error := some "Обработка уже выполняется" },
       sampleDB (sampleTemplate 1 none true []), []))
    ∧ (findTemplate { sampleDB (sampleTemplate 1 none false []) with
          templates := (sampleDB (sampleTemplate 1 none false [])).templates.map
            fun t => if t.id == 1 then { t with inProgress := true } else t }
        1).map (·.inProgress) = some true :=
  ⟨(claim_C10_run_now_guard (happyOracles [])
      (sampleDB (sampleTemplate 1 none true [])) 1 1 none 0 10 20
      (sampleTemplate 1 none true []) (by decide) (by decide)).1 rfl,
   ((claim_C10_run_now_guard (happyOracles [])
      (sampleDB (sampleTemplate 1 none false [])) 1 1 none 0 10 20
      (sampleTemplate 1 none false []) (by decide) (by decide)).2 rfl).1⟩

/-- C7: connection errors, timeouts and HTTP status errors — including
non-429 4xx responses, which the current contract retries too — are
retryable; a persistently failing call is attempted exactly 3 times and
the last error then propagates (`reraise=True`); every backoff wait is
clamped between the minimum 2 s and the maximum 30 s; and a summarizer
failure surfacing to the processor aborts that job's run as an error. -/
theorem claim_C7_retry_policy (net : Nat → HttpOutcome) (code : Nat)
    (body : String)
    (hfail : ∀ k, ∃ e, singleApiCall (net k) = .error e
      ∧ retryableError e = true)
    (hcode : 400 ≤ code ∧ code ≤ 499 ∧ code ≠ 429)
    (o : Oracles) (s0 : DBState) (templateId : Nat) (fromOverride : Option Int)
    (startNow finNow : Int) (tpl : Template) (e : String)
    (hfind : findTemplate s0 templateId = some tpl)
    (hne : (collectMessagesFromData o.fetch (effectiveFrom fromOverride tpl)
      tpl.sources).1 ≠ [])
    (hsum : o.summarize (collectMessagesFromData o.fetch
        (effectiveFrom fromOverride tpl) tpl.sources).1 tpl.customPrompt =
      .error e)
    (hfresh : ∀ rl ∈ s0.runLogs, rl.id ≠ s0.nextRunLogId)
    (hpos : s0.nextRunLogId ≠ 0)
    (hestr : e ≠ "") :
    (singleApiCall (.response code body) = .error (.httpStatus code)
      ∧ retryableError (.httpStatus code) = true)
    ∧ (retryableError .timeout = true ∧ retryableError .connect = true)
    ∧ ((callDeepseekApi net).2 = 3
       ∧ ∃ elast, (callDeepseekApi net).1 = .error elast)
    ∧ (∀ k, 2 ≤ waitSeconds k ∧ waitSeconds k ≤ 30)
    ∧ ((processTemplate o s0 templateId fromOverride startNow
          finNow).result.success = false
       ∧ (processTemplate o s0 templateId fromOverride startNow
          finNow).result.error = some e
       ∧ findRunLog (processTemplate o s0 templateId fromOverride startNow
            finNow).state s0.nextRunLogId =
          some { id := s0.nextRunLogId, templateId := tpl.id,
                 startedAt := startNow, finishedAt := some finNow,
                 status := "error", messagesCount := 0,
                 errorMessage := some e }) := by
  refine ⟨⟨?_, rfl⟩, ⟨rfl, rfl⟩, ?_, ?_, ?_⟩
  · have hnot : ¬(200 ≤ code ∧ code ≤ 299) := by omega
    simp [singleApiCall, hnot]
  · obtain ⟨e1, h1, r1⟩ := hfail 1
    obtain ⟨e2, h2, r2⟩ := hfail 2
    obtain ⟨e3, h3, r3⟩ := hfail 3
    have : callDeepseekApi net = (.error e3, 3) := by
      unfold callDeepseekApi
      unfold retryGo
      rw [h1]
      simp only [r1, if_true]
      unfold retryGo
      rw [h2]
      simp only [r2, if_true]
      unfold retryGo
      rw [h3]
    rw [this]
    exact ⟨rfl, e3, rfl⟩
  · intro k
    refine ⟨le_max_left 2 _, ?_⟩
    exact max_le (by norm_num) (min_le_left 30 _)
  · rw [processTemplate_summarize_error_eq o s0 templateId fromOverride
      startNow finNow tpl e hfind hne hsum]
    refine ⟨rfl, rfl, ?_⟩
    rw [findRunLog_finalize _ _ _ _ _ _ _ hpos,
      findRunLog_createRunningLog _ _ _ hfresh]
    simp [hestr]

/-- Witness for C7: a network that answers 400 forever is retried through
exactly 3 attempts before the status error propagates; all waits are
between 2 s and 30 s; and a run whose summarizer call fails ends as an
`error` run record with the failure message. -/
theorem claim_C7_witness :
    (singleApiCall (.response 400 "bad request") =
        .error (.httpStatus 400)
      ∧ retryableError (.httpStatus 400) = true)
    ∧ (retryableError .timeout = true ∧ retryableError .connect = true)
    ∧ ((callDeepseekApi (fun _ => .response 400 "bad request")).2 = 3
       ∧ ∃ elast, (callDeepseekApi
          (fun _ => .response 400 "bad request")).1 = .error elast)
    ∧ (∀ k, 2 ≤ waitSeconds k ∧ waitSeconds k ≤ 30)
    ∧ ((processTemplate
          { fetch := fun _ _ => .ok [{ text := "a" }],
            summarize := fun _ _ => .error "api failed",
            send := fun _ _ => .ok () }
          (sampleDB (sampleTemplate 1 none true
            [{ identifier := "chan", chatId := none }])) 1 none 10
          20).result.success = false
       ∧ (processTemplate
          { fetch := fun _ _ => .ok [{ text := "a" }],
            summarize := fun _ _ => .error "api failed",
            send := fun _ _ => .ok () }
          (sampleDB (sampleTemplate 1 none true
            [{ identifier := "chan", chatId := none }])) 1 none 10
          20).result.error = some "api failed"
       ∧ findRunLog (processTemplate
            { fetch := fun _ _ => .ok [{ text := "a" }],
              summarize := fun _ _ => .error "api failed",
              send := fun _ _ => .ok () }
            (sampleDB (sampleTemplate 1 none true
              [{ identifier := "chan", chatId := none }])) 1 none 10
            20).state 1 =
          some { id := 1, templateId := 1, startedAt := 10,
                 finishedAt := some 20, status := "error",
                 messagesCount := 0, errorMessage := some "api failed" }) :=
  claim_C7_retry_policy (fun _ => .response 400 "bad request") 400
    "bad request"
    (fun _ => ⟨.httpStatus 400, rfl, rfl⟩)
    (by decide)
    { fetch := fun _ _ => .ok [{ text := "a" }],
      summarize := fun _ _ => .error "api failed",
      send := fun _ _ => .ok () }
    (sampleDB (sampleTemplate 1 none true
      [{ identifier := "chan", chatId := none }])) 1 none 10 20
    (sampleTemplate 1 none true [{ identifier := "chan", chatId := none }])
    "api failed" (by decide) (by decide) rfl (by decide) (by decide)
    (by decide)

end TgBot
